import Mathlib

/-
Verification of the client-side session/auth state container in
src/Provider/authProvider.tsx: the Session Store, Role Resolver and
Avatar Cache.  The TypeScript code is embedded shallowly as pure
state-passing functions; JavaScript truthiness tests on strings and
numbers (`if (newToken)`, `if (roleCache)`, `if (userToStore.avatarId)`)
are translated literally (empty string and zero are falsy).
-/

/-- A user record as handled by the auth provider: the `UserDto` carries at
least an identifier and an optional numeric avatar reference
(`avatarId : number | null`). -/
structure User where
  id : String
  avatarId : Option Int
deriving Repr, DecidableEq

/-- Durable client storage: the cookie store keys `accessToken`,
`refreshToken` and `user`, and the localStorage key `userAvatar`.
`none` means the key is absent. -/
structure Storage where
  accessToken : Option String
  refreshToken : Option String
  user : Option User
  userAvatar : Option String
deriving Repr, DecidableEq

/-- The full session state of the provider: the in-memory React state
(`accessToken`, `refreshToken`, `user`, `avatar`, `roleCache`) together
with the durable storage it persists to. -/
structure SessionState where
  accessToken : Option String
  refreshToken : Option String
  user : Option User
  avatar : Option String
  roleCache : String
  storage : Storage
deriving Repr, DecidableEq

/-- A session with nothing set: every field absent and `roleCache` empty. -/
def emptySession : SessionState :=
  { accessToken := none, refreshToken := none, user := none, avatar := none,
    roleCache := "",
    storage := { accessToken := none, refreshToken := none, user := none,
                 userAvatar := none } }

/-- `setAccessToken(newToken)`: always updates the in-memory state; the cookie
is written only when `newToken` is truthy (`if (newToken)`), so a present but
empty string removes the cookie, as `null` does. -/
def setAccessToken (s : SessionState) (newToken : Option String) : SessionState :=
  let s1 := { s with accessToken := newToken }
  match newToken with
  | some t =>
      if t = "" then
        { s1 with storage := { s1.storage with accessToken := none } }
      else
        { s1 with storage := { s1.storage with accessToken := some t } }
  | none => { s1 with storage := { s1.storage with accessToken := none } }

/-- `setRefreshToken(newRefreshToken)`: symmetric to `setAccessToken` on the
independent `refreshToken` cookie key. -/
def setRefreshToken (s : SessionState) (newRefreshToken : Option String) : SessionState :=
  let s1 := { s with refreshToken := newRefreshToken }
  match newRefreshToken with
  | some t =>
      if t = "" then
        { s1 with storage := { s1.storage with refreshToken := none } }
      else
        { s1 with storage := { s1.storage with refreshToken := some t } }
  | none => { s1 with storage := { s1.storage with refreshToken := none } }

/-- `setUser(newUser)`: if present, persists the user cookie, updates the
in-memory user, and — only when `userToStore.avatarId` is truthy (non-null
and non-zero) — fires `fetchAndStoreAvatar(avatarId)`.  If absent, removes
the user cookie and the `userAvatar` key and resets in-memory avatar and
user.  The second component lists the avatar fetches triggered. -/
def setUser (s : SessionState) (newUser : Option User) : SessionState × List Int :=
  match newUser with
  | some u =>
      let s1 := { s with user := some u,
                         storage := { s.storage with user := some u } }
      match u.avatarId with
      | some a => if a = 0 then (s1, []) else (s1, [a])
      | none => (s1, [])
  | none =>
      ({ s with user := none, avatar := none,
                storage := { s.storage with user := none, userAvatar := none } },
       [])

/-- Outcome of downloading the avatar blob and encoding it with the
`FileReader` in `storeAvatar`: `Except.ok` carries the base64 data-URL
string; `Except.error` stands for a download or encoding failure. -/
def DownloadOracle : Type := Int → Except Unit String

/-- `fetchAndStoreAvatar(avatarId)`: a falsy `avatarId` (`null` or `0`,
via `if (!avatarId)`) clears the stored and in-memory avatar.  Otherwise the
blob is downloaded and encoded; on success the result is persisted under
`userAvatar` and set in memory; any failure is only logged (`console.error`)
inside the `catch` and never rethrown.  The boolean records whether an error
was logged. -/
def fetchAndStoreAvatar (s : SessionState) (avatarId : Option Int)
    (download : DownloadOracle) : SessionState × Bool :=
  match avatarId with
  | none =>
      ({ s with avatar := none,
                storage := { s.storage with userAvatar := none } }, false)
  | some a =>
      if a = 0 then
        ({ s with avatar := none,
                  storage := { s.storage with userAvatar := none } }, false)
      else
        match download a with
        | Except.ok avatarBase64 =>
            ({ s with avatar := some avatarBase64,
                      storage := { s.storage with userAvatar := some avatarBase64 } },
             false)
        | Except.error _ => (s, true)

/-- `logout()`: `setAccessToken(null)`, `setRefreshToken(null)`,
`setUser(null)`, `setRoleCache("")`, `localStorage.removeItem('userAvatar')`,
`setAvatar(null)`.  The `dispatch(clearTasks())` signal goes to an external
task-state owner and is not part of the session state. -/
def logout (s : SessionState) : SessionState :=
  let s1 := setAccessToken s none
  let s2 := setRefreshToken s1 none
  let s3 := (setUser s2 none).1
  let s4 := { s3 with roleCache := "" }
  let s5 := { s4 with storage := { s4.storage with userAvatar := none } }
  { s5 with avatar := none }

/-- The errors `getRole` can throw: `Error("Invalid userId")` — the spec's
`InvalidArgument` — and `Error("Failed to fetch user role")` — the spec's
`RoleFetchFailed`. -/
inductive AuthError where
  | invalidUserId
  | roleFetchFailed
deriving Repr, DecidableEq

/-- Outcome of `axiosInstance.get` on `User/GetRole/{userId}`: `ok data`
carries `response.data` (the empty string models a backend that returns no
value); `err` models a rejected request. -/
inductive NetResult where
  | ok (data : String)
  | err
deriving Repr, DecidableEq

/-- The network, keyed by the `userId` in the request path. -/
def NetOracle : Type := String → NetResult

/-- `getRole(userId)`: throws `Invalid userId` on a falsy (empty) `userId`;
returns `roleCache` if it is truthy (non-empty); otherwise performs one
network call, computes `response.data || "User"`, caches it and returns it,
or throws `Failed to fetch user role` if the call errors.  The result is
the call outcome, the resulting session state, and the number of network
calls performed. -/
def getRole (s : SessionState) (userId : String) (net : NetOracle) :
    Except AuthError String × SessionState × Nat :=
  if userId = "" then
    (Except.error AuthError.invalidUserId, s, 0)
  else if s.roleCache ≠ "" then
    (Except.ok s.roleCache, s, 0)
  else
    match net userId with
    | NetResult.ok data =>
        let role := if data = "" then "User" else data
        (Except.ok role, { s with roleCache := role }, 1)
    | NetResult.err => (Except.error AuthError.roleFetchFailed, s, 1)

/-- C1: for every session state, `logout()` leaves accessToken, refreshToken,
user and avatar absent and `roleCache` empty, both in memory and in durable
storage. -/
theorem logout_clears_session (s : SessionState) :
    (logout s).accessToken = none ∧ (logout s).refreshToken = none ∧
    (logout s).user = none ∧ (logout s).avatar = none ∧
    (logout s).roleCache = "" ∧
    (logout s).storage.accessToken = none ∧
    (logout s).storage.refreshToken = none ∧
    (logout s).storage.user = none ∧
    (logout s).storage.userAvatar = none :=
  ⟨rfl, rfl, rfl, rfl, rfl, rfl, rfl, rfl, rfl⟩

/-- C2 counterexample: `setUser(null)` does not clear the cached role.  From a
state whose role cache holds `"Admin"`, the cache still holds `"Admin"`
afterwards. -/
theorem setUser_none_roleCache_cex :
    (setUser { emptySession with roleCache := "Admin" } none).1.roleCache = "Admin" ∧
    ("Admin" : String) ≠ "" :=
  ⟨rfl, by decide⟩

/-- C2 amended: `setUser(absent)` clears the persisted user, the persisted
avatar, and the in-memory user and avatar; the cached role is left
unchanged (it is cleared by `logout`, not by `setUser`). -/
theorem setUser_none_clears_user_and_avatar (s : SessionState) :
    (setUser s none).1.user = none ∧
    (setUser s none).1.avatar = none ∧
    (setUser s none).1.storage.user = none ∧
    (setUser s none).1.storage.userAvatar = none ∧
    (setUser s none).1.roleCache = s.roleCache :=
  ⟨rfl, rfl, rfl, rfl, rfl⟩

/-- C4: `getRole` with an empty userId throws `Invalid userId`, performs no
network call, and leaves the session state unchanged. -/
theorem getRole_empty_userId (s : SessionState) (net : NetOracle) :
    getRole s "" net = (Except.error AuthError.invalidUserId, s, 0) :=
  rfl

/-- C3: starting from an empty role cache, two `getRole` calls for the same
non-empty userId whose first network response succeeds perform exactly one
network call in total and both return the same role string. -/
theorem getRole_twice_one_network_call (s : SessionState) (u d : String)
    (net : NetOracle) (hu : u ≠ "") (hc : s.roleCache = "")
    (hn : net u = NetResult.ok d) :
    ∃ r : String,
      (getRole s u net).1 = Except.ok r ∧
      (getRole (getRole s u net).2.1 u net).1 = Except.ok r ∧
      (getRole s u net).2.2 + (getRole (getRole s u net).2.1 u net).2.2 = 1 := by
  refine ⟨if d = "" then "User" else d, ?_⟩
  by_cases hd : d = "" <;>
    simp [getRole, hu, hc, hn, hd]

/-- C3 witness: twice `getRole "u1"` against a network answering `"Admin"`. -/
theorem getRole_twice_one_network_call_witness :
    ∃ r : String,
      (getRole emptySession "u1" (fun _ => NetResult.ok "Admin")).1 = Except.ok r ∧
      (getRole (getRole emptySession "u1" (fun _ => NetResult.ok "Admin")).2.1 "u1"
          (fun _ => NetResult.ok "Admin")).1 = Except.ok r ∧
      (getRole emptySession "u1" (fun _ => NetResult.ok "Admin")).2.2 +
        (getRole (getRole emptySession "u1" (fun _ => NetResult.ok "Admin")).2.1 "u1"
          (fun _ => NetResult.ok "Admin")).2.2 = 1 :=
  getRole_twice_one_network_call emptySession "u1" "Admin"
    (fun _ => NetResult.ok "Admin") (by decide) rfl rfl

/-- C5: for a non-empty userId and an empty role cache, a failing network call
makes `getRole` throw `Failed to fetch user role`, perform exactly one network
call, and leave the session state — in particular the empty role cache —
unchanged. -/
theorem getRole_network_error_no_cache (s : SessionState) (u : String)
    (net : NetOracle) (hu : u ≠ "") (hc : s.roleCache = "")
    (hn : net u = NetResult.err) :
    getRole s u net = (Except.error AuthError.roleFetchFailed, s, 1) := by
  simp [getRole, hu, hc, hn]

/-- C5 witness: `getRole "u2"` against a network that rejects. -/
theorem getRole_network_error_no_cache_witness :
    getRole emptySession "u2" (fun _ => NetResult.err) =
      (Except.error AuthError.roleFetchFailed, emptySession, 1) :=
  getRole_network_error_no_cache emptySession "u2" (fun _ => NetResult.err)
    (by decide) rfl rfl

/-- C6: for a non-empty userId and an empty role cache, a successful network
call returning an empty role makes `getRole` return the fallback `"User"` and
cache `"User"`. -/
theorem getRole_empty_role_defaults (s : SessionState) (u : String)
    (net : NetOracle) (hu : u ≠ "") (hc : s.roleCache = "")
    (hn : net u = NetResult.ok "") :
    getRole s u net = (Except.ok "User", { s with roleCache := "User" }, 1) := by
  simp [getRole, hu, hc, hn]

/-- C6 witness: `getRole "u3"` against a network answering the empty string. -/
theorem getRole_empty_role_defaults_witness :
    getRole emptySession "u3" (fun _ => NetResult.ok "") =
      (Except.ok "User", { emptySession with roleCache := "User" }, 1) :=
  getRole_empty_role_defaults emptySession "u3" (fun _ => NetResult.ok "")
    (by decide) rfl rfl

/-- C7 counterexample: `setAccessToken` with a present but empty token value
removes the cookie (`if (newToken)` is falsy on `""`), so the fresh storage
read returns absent, not the token. -/
theorem setAccessToken_empty_token_cex :
    (setAccessToken emptySession (some "")).storage.accessToken = none ∧
    (none : Option String) ≠ some "" :=
  ⟨rfl, by decide⟩

/-- C7 amended: for every non-empty token value T, `setAccessToken(T)`
followed by a fresh read of the `accessToken` storage key returns T, and
`setAccessToken(absent)` followed by such a read returns absent; the
symmetric property holds for `setRefreshToken` on its independent key, and
neither setter touches the other's key. -/
theorem set_tokens_storage_roundtrip (s : SessionState) (t : String)
    (ht : t ≠ "") :
    (setAccessToken s (some t)).storage.accessToken = some t ∧
    (setAccessToken s none).storage.accessToken = none ∧
    (setRefreshToken s (some t)).storage.refreshToken = some t ∧
    (setRefreshToken s none).storage.refreshToken = none ∧
    (setAccessToken s (some t)).storage.refreshToken = s.storage.refreshToken ∧
    (setRefreshToken s (some t)).storage.accessToken = s.storage.accessToken := by
  simp [setAccessToken, setRefreshToken, ht]

/-- C7 witness: the round trip at the concrete token `"tok"`. -/
theorem set_tokens_storage_roundtrip_witness :
    (setAccessToken emptySession (some "tok")).storage.accessToken = some "tok" ∧
    (setAccessToken emptySession none).storage.accessToken = none ∧
    (setRefreshToken emptySession (some "tok")).storage.refreshToken = some "tok" ∧
    (setRefreshToken emptySession none).storage.refreshToken = none ∧
    (setAccessToken emptySession (some "tok")).storage.refreshToken =
      emptySession.storage.refreshToken ∧
    (setRefreshToken emptySession (some "tok")).storage.accessToken =
      emptySession.storage.accessToken :=
  set_tokens_storage_roundtrip emptySession "tok" (by decide)

/-- C8: when the avatar download or encoding fails for a present (truthy)
avatarId, `fetchAndStoreAvatar` only logs the error — the caller sees no
failure — and leaves the state untouched, so an absent avatar stays absent
in memory and in the `userAvatar` storage key. -/
theorem fetchAndStoreAvatar_failure_silent (s : SessionState) (a : Int)
    (download : DownloadOracle) (ha : a ≠ 0)
    (hd : download a = Except.error ())
    (hav : s.avatar = none) (hst : s.storage.userAvatar = none) :
    fetchAndStoreAvatar s (some a) download = (s, true) ∧
    (fetchAndStoreAvatar s (some a) download).1.avatar = none ∧
    (fetchAndStoreAvatar s (some a) download).1.storage.userAvatar = none := by
  simp [fetchAndStoreAvatar, ha, hd, hav, hst]

/-- C8 witness: a failing download for avatarId 5 from the empty session. -/
theorem fetchAndStoreAvatar_failure_silent_witness :
    fetchAndStoreAvatar emptySession (some 5) (fun _ => Except.error ()) =
      (emptySession, true) ∧
    (fetchAndStoreAvatar emptySession (some 5)
        (fun _ => Except.error ())).1.avatar = none ∧
    (fetchAndStoreAvatar emptySession (some 5)
        (fun _ => Except.error ())).1.storage.userAvatar = none :=
  fetchAndStoreAvatar_failure_silent emptySession 5 (fun _ => Except.error ())
    (by decide) rfl rfl rfl

/-- C9 counterexample: a user whose avatarId is present but equal to 0 is
falsy under `if (userToStore.avatarId)`, so `setUser` triggers no avatar
fetch at all. -/
theorem setUser_avatarId_zero_cex :
    (setUser emptySession (some { id := "u1", avatarId := some 0 })).2 = [] ∧
    ([] : List Int) ≠ [0] :=
  ⟨rfl, by decide⟩

/-- C9 amended: for every user record whose avatarId is present and non-zero,
`setUser` triggers exactly one avatar fetch, and that fetch is for the
user's avatarId. -/
theorem setUser_triggers_one_fetch (s : SessionState) (u : User) (a : Int)
    (hu : u.avatarId = some a) (ha : a ≠ 0) :
    (setUser s (some u)).2 = [a] := by
  simp [setUser, hu, ha]

/-- C9 witness: `setUser` with avatarId 42 triggers the single fetch [42]. -/
theorem setUser_triggers_one_fetch_witness :
    (setUser emptySession (some { id := "u1", avatarId := some 42 })).2 = [42] :=
  setUser_triggers_one_fetch emptySession { id := "u1", avatarId := some 42 } 42
    rfl (by decide)

/-- C10: the role cache is one global string, not keyed by userId: after a
successful `getRole u1` from an empty cache, `getRole u2` for a distinct
non-empty u2 performs no network call and returns the role that the u1 call
cached. -/
theorem roleCache_shared_across_users (s : SessionState) (u1 u2 d : String)
    (net : NetOracle) (h1 : u1 ≠ "") (h2 : u2 ≠ "") (h12 : u1 ≠ u2)
    (hc : s.roleCache = "") (hn : net u1 = NetResult.ok d) :
    (getRole (getRole s u1 net).2.1 u2 net).2.2 = 0 ∧
    (getRole (getRole s u1 net).2.1 u2 net).1 =
      Except.ok (getRole s u1 net).2.1.roleCache := by
  by_cases hd : d = "" <;>
    simp [getRole, h1, h2, hc, hn, hd]

/-- C10 witness: `getRole "u1"` then `getRole "u2"` against a network
answering `"Admin"` for every userId. -/
theorem roleCache_shared_across_users_witness :
    (getRole (getRole emptySession "u1" (fun _ => NetResult.ok "Admin")).2.1 "u2"
        (fun _ => NetResult.ok "Admin")).2.2 = 0 ∧
    (getRole (getRole emptySession "u1" (fun _ => NetResult.ok "Admin")).2.1 "u2"
        (fun _ => NetResult.ok "Admin")).1 =
      Except.ok (getRole emptySession "u1"
        (fun _ => NetResult.ok "Admin")).2.1.roleCache :=
  roleCache_shared_across_users emptySession "u1" "u2" "Admin"
    (fun _ => NetResult.ok "Admin") (by decide) (by decide) (by decide) rfl rfl
